import Mathlib

/-!
Verification of the GCS upload orchestrator (src/upload/gcs_upload.py).

The Python program is shallowly embedded:
* the local filesystem is a finite tree of entries (`FSEntry`/`FSDir`);
  paths are lists of components, already resolved (absolute, symlinks to
  regular files collapsed to `file`, symlinks to directories and other
  non-regular entries collapsed to `other`);
* the Google Cloud Storage client (an external collaborator, spec section 2)
  is an oracle `Cloud` describing check-time blob existence, write-time blob
  existence (these may differ: that is exactly the check-then-act race),
  transport failures and public-ACL behaviour;
* `upload_file` embeds `GCSUploader.upload_file` (lines 104-212),
  `upload_directory` embeds `GCSUploader.upload_directory` (lines 214-304),
  `mainRun` embeds `main` (lines 343-536) after argument parsing;
* Python exceptions are `Except UploadError`; `FileNotFoundError` is
  `UploadError.notFound`, `ValueError` is `UploadError.invalidArgument`,
  `GoogleCloudError` is `UploadError.cloud`.
-/

/-! ## Filesystem model -/

mutual
/-- A resolved filesystem entry: a regular file with its byte length, a
directory with its ordered children, or an entry that is neither a regular
file nor a directory (e.g. a symlink to a directory). -/
inductive FSEntry where
  | file : Nat → FSEntry
  | other : FSEntry
  | dir : FSDir → FSEntry
/-- Ordered children of a directory, in traversal (scandir) order. -/
inductive FSDir where
  | nil : FSDir
  | cons : String → FSEntry → FSDir → FSDir
end

def FSDir.find? : FSDir → String → Option FSEntry
  | .nil, _ => none
  | .cons m c rest, n => if m = n then some c else FSDir.find? rest n

def FSEntry.isFile : FSEntry → Bool
  | .file _ => true
  | _ => false

def FSEntry.isDir : FSEntry → Bool
  | .dir _ => true
  | _ => false

/-- Resolve a path (list of components) against the tree rooted at `e`. -/
def lookup : FSEntry → List String → Option FSEntry
  | e, [] => some e
  | .dir cs, n :: rest =>
    match cs.find? n with
    | some c => lookup c rest
    | none => none
  | _, _ :: _ => none

/-- Render a resolved path the way `str(Path(...))` does on a POSIX host. -/
def renderPath (p : List String) : String := "/" ++ String.intercalate "/" p

/-- The final component of a path: `Path(...).name`. -/
def lastComp (p : List String) : String := p.getLast?.getD ""

/-! ## Shell-style glob matching (fnmatch, as used by pathlib glob/rglob) -/

def suffixesOf : List Char → List (List Char)
  | [] => [[]]
  | c :: cs => (c :: cs) :: suffixesOf cs

/-- fnmatch-style matching of a pattern against one path component:
a star matches any (possibly empty) run of characters, a question mark
matches exactly one character, anything else matches itself.  pathlib does
not special-case hidden files, and neither does this matcher. -/
def globMatch : List Char → List Char → Bool
  | [], s => s.isEmpty
  | '*' :: ps, s => (suffixesOf s).any (fun t => globMatch ps t)
  | '?' :: ps, s => match s with | [] => false | _ :: cs => globMatch ps cs
  | p :: ps, s => match s with | [] => false | c :: cs => p = c && globMatch ps cs

def matchesPattern (pat nm : String) : Bool := globMatch pat.toList nm.toList

/-! ## Directory enumeration: `Path.glob` and `Path.rglob` (lines 252-255)

`pattern` is a single path component (the CLI's `--pattern`, e.g. `*.pdf`).
`glob(pattern)` yields the matching children of the top level, in scandir
order; `rglob(pattern)` yields, for each directory in depth-first preorder
(the directory itself first, then its subdirectories), the matching
children of that directory.  Results are (relative path, entry) pairs. -/

def topChildren : FSDir → List (List String × FSEntry)
  | .nil => []
  | .cons n e rest => ([n], e) :: topChildren rest

def matchChildren (pat : String) : FSDir → List (List String × FSEntry)
  | .nil => []
  | .cons n e rest =>
    if matchesPattern pat n then ([n], e) :: matchChildren pat rest
    else matchChildren pat rest

mutual
/-- Matches strictly below the entry `e`: empty unless `e` is a directory
(`**` does not descend into non-directories). -/
def rglobEntry (pat : String) : FSEntry → List (List String × FSEntry)
  | .dir ds => matchChildren pat ds ++ rglobUnder pat ds
  | _ => []
def rglobUnder (pat : String) : FSDir → List (List String × FSEntry)
  | .nil => []
  | .cons n e rest =>
    (rglobEntry pat e).map (fun pr => (n :: pr.1, pr.2)) ++ rglobUnder pat rest
end

mutual
/-- Every entry strictly below `e`, all depths, in the same traversal order
as `rglobEntry` but without any pattern filtering. -/
def allEntry : FSEntry → List (List String × FSEntry)
  | .dir ds => topChildren ds ++ allUnder ds
  | _ => []
def allUnder : FSDir → List (List String × FSEntry)
  | .nil => []
  | .cons n e rest =>
    (allEntry e).map (fun pr => (n :: pr.1, pr.2)) ++ allUnder rest
end

/-- Lines 252-258 of `upload_directory`: glob or rglob with `pattern`, then
keep only regular files. -/
def discoverFrom (cs : FSDir) (pat : String) (recursive : Bool) :
    List (List String × FSEntry) :=
  (if recursive then matchChildren pat cs ++ rglobUnder pat cs
   else matchChildren pat cs).filter (fun pr => pr.2.isFile)

/-! ## The Storage Client and host environment -/

/-- The external Storage Client, an oracle.  `blobExists` is the state seen
by the explicit existence check (line 156); `existsAtWrite` is the state at
the moment the write lands (they differ exactly when a concurrent creation
races the check); `transportError` is any network/auth/quota failure of the
write itself. -/
structure Cloud where
  blobExists : String → String → Bool
  existsAtWrite : String → String → Bool
  transportError : String → String → Option String
  makePublicError : String → String → Option String
  publicUrl : String → String → String
  listBucketsError : Option String
  listBlobsError : String → Option String

/-- Modelled from the spec: the Storage Client's `uploadBlob` contract
(section 2 and glossary "Precondition write").  A write with
`if_generation_match = 0` ("must not already exist") is rejected when the
blob exists at write time; an unconditional write never is.  Transport
failures can hit either kind of write.  The GCS library itself is not part
of this repository. -/
def Cloud.uploadBlob (c : Cloud) (bucket nm : String) (ifGenerationMatch : Option Nat) :
    Option String :=
  match c.transportError bucket nm with
  | some e => some e
  | none =>
    match ifGenerationMatch with
    | some 0 => if c.existsAtWrite bucket nm then some "412: Precondition Failed" else none
    | _ => none

/-- Host facts consumed by the uploader: the filesystem root, the
`mimetypes.guess_type` table, and the wall clock reading used for the
`uploaded_at` field. -/
structure Env where
  root : FSEntry
  guessType : String → Option String
  now : String

/-! ## Results and errors -/

/-- The dictionaries returned by `upload_file`/`upload_directory`:
`status = success` (lines 195-205), `status = skipped` (lines 158-162) and
`status = error` (lines 288-292). -/
inductive UploadResult where
  | success (source destination bucket : String) (size_bytes : Nat)
      (content_type : String) (gs_uri : String) (public_url : Option String)
      (uploaded_at : String)
  | skipped (reason destination : String)
  | error (source errMsg : String)
  deriving DecidableEq

def UploadResult.isError : UploadResult → Bool
  | .error _ _ => true
  | _ => false

def UploadResult.destinationOf : UploadResult → Option String
  | .success _ d _ _ _ _ _ _ => some d
  | .skipped _ d => some d
  | .error _ _ => none

/-- Python exceptions raised by the uploader: `FileNotFoundError`,
`ValueError` and `GoogleCloudError` respectively. -/
inductive UploadError where
  | notFound (msg : String)
  | invalidArgument (msg : String)
  | cloud (msg : String)
  deriving DecidableEq

/-- `str(e)`: the message carried by the exception. -/
def UploadError.message : UploadError → String
  | .notFound m => m
  | .invalidArgument m => m
  | .cloud m => m

/-! ## Single-file upload (lines 104-212) -/

/-- Lines 178 and 184: the `if_generation_match` argument passed to
`upload_from_filename`.  `generation_match` is 0 ("object must not exist")
when overwrite is off, and the argument itself is passed only in that case. -/
def if_generation_match_arg (overwrite : Bool) : Option Nat :=
  let generation_match := if !overwrite then some (0 : Nat) else none
  if !overwrite then generation_match else none

/-- `GCSUploader.upload_file` (lines 104-212).  In source order: source must
exist (line 136) and be a regular file (line 139); the destination defaults
to the source file name (lines 143-144); the content type defaults to the
guessed MIME type, then to application/octet-stream (lines 147-149); with
overwrite off an existing blob short-circuits to a skipped result (lines
156-162); the write goes through the Storage Client with the
`if_generation_match` argument (lines 181-185); `make_public` (lines
188-192); the success dictionary (lines 195-205); a `GoogleCloudError` is
re-raised, not swallowed (lines 210-212). -/
def upload_file (env : Env) (c : Cloud) (bucket_name : String)
    (source_path : List String) (destination_blob_name : Option String)
    (content_type : Option String) (metadata : Option (List (String × String)))
    (make_public : Bool) (overwrite : Bool) : Except UploadError UploadResult :=
  match lookup env.root source_path with
  | none => .error (.notFound ("Source file not found: " ++ renderPath source_path))
  | some (.file file_size) =>
    let destination := destination_blob_name.getD (lastComp source_path)
    let ct := content_type.getD
      ((env.guessType (renderPath source_path)).getD "application/octet-stream")
    if !overwrite && c.blobExists bucket_name destination then
      .ok (.skipped "blob_exists" destination)
    else
      match c.uploadBlob bucket_name destination (if_generation_match_arg overwrite) with
      | some e => .error (.cloud e)
      | none =>
        match (if make_public then c.makePublicError bucket_name destination else none) with
        | some e => .error (.cloud e)
        | none =>
          .ok (.success (renderPath source_path) destination bucket_name file_size ct
            ("gs://" ++ bucket_name ++ "/" ++ destination)
            (if make_public then some (c.publicUrl bucket_name destination) else none)
            env.now)
  | some _ => .error (.invalidArgument ("Source path is not a file: " ++ renderPath source_path))

/-! ## Directory upload (lines 214-304) -/

/-- `str.replace` of every backslash by a forward slash (line 273). -/
def normalizeSeps (s : String) : String :=
  String.mk (s.toList.map (fun ch => if ch = '\\' then '/' else ch))

/-- Split a character list at every forward slash. -/
def splitSlash : List Char → List (List Char)
  | [] => [[]]
  | c :: cs =>
    let r := splitSlash cs
    if c = '/' then [] :: r
    else
      match r with
      | [] => [[c]]
      | h :: t => (c :: h) :: t

/-- Non-empty components of a POSIX path string. -/
def pathParts (s : String) : List String :=
  ((splitSlash s.toList).map (fun l => String.mk l)).filter (fun t => t ≠ "")

/-- Lines 269-273: the destination blob name of a discovered file, from the
destination prefix (`destp`, the source's `destination_prefix`) and the
file's path relative to the source directory.  `Path(destination_prefix) /
relative_path` when the prefix is non-empty (Python truthiness of the
string), the bare relative path otherwise; rendered with forward slashes
and with any remaining backslash normalized to a forward slash. -/
def derive_destination (destp : String) (rel : List String) : String :=
  let s :=
    if destp ≠ "" then
      (if destp.toList.head? = some '/' then "/" else "") ++
        String.intercalate "/" (pathParts destp ++ rel)
    else
      String.intercalate "/" rel
  normalizeSeps s

/-- The loop body of `upload_directory` (lines 267-292) for one discovered
file `pr` (relative path and entry): derive the destination, call
`upload_file`, and convert any exception into an error-status result
carrying the source path and the message. -/
def process_one (env : Env) (c : Cloud) (bucket_name : String)
    (source_dir : List String) (destp : String) (content_type : Option String)
    (metadata : Option (List (String × String))) (make_public overwrite : Bool)
    (pr : List String × FSEntry) : UploadResult :=
  let destination := derive_destination destp pr.1
  match upload_file env c bucket_name (source_dir ++ pr.1) (some destination)
      content_type metadata make_public overwrite with
  | .ok r => r
  | .error e => .error (renderPath (source_dir ++ pr.1)) e.message

/-- `GCSUploader.upload_directory` (lines 214-304): the source directory
must exist (line 245) and be a directory (line 248); files are discovered
by glob/rglob and filtered to regular files (lines 252-258); an empty
discovery returns an empty batch (lines 260-262); otherwise every
discovered file is processed in discovery order by the loop body. -/
def upload_directory (env : Env) (c : Cloud) (bucket_name : String)
    (source_dir : List String) (destp : String) (pat : String)
    (recursive : Bool) (content_type : Option String)
    (metadata : Option (List (String × String))) (make_public overwrite : Bool) :
    Except UploadError (List UploadResult) :=
  match lookup env.root source_dir with
  | none => .error (.notFound ("Source directory not found: " ++ renderPath source_dir))
  | some (.dir cs) =>
    let files := discoverFrom cs pat recursive
    if files.isEmpty then .ok []
    else .ok (files.map (process_one env c bucket_name source_dir destp
      content_type metadata make_public overwrite))
  | some _ => .error (.invalidArgument ("Source path is not a directory: " ++ renderPath source_dir))

/-! ## CLI layer (lines 343-536) -/

/-- The parsed argument namespace (lines 370-449).  `source` is already
resolved to path components (line 484 resolves it before use); `bucket_name`
defaults to the module default and is empty only when the user passes an
empty string. -/
structure Args where
  bucket_name : String
  source : Option (List String)
  destination : Option String
  recursive : Bool
  pat : String
  content_type : Option String
  make_public : Bool
  no_overwrite : Bool
  list_buckets : Bool
  list_blobs_flag : Bool
  verbose : Bool

def isDirAt (env : Env) (p : List String) : Bool :=
  match lookup env.root p with
  | some (.dir _) => true
  | _ => false

/-- `main` (lines 343-536) after `parse_args` has succeeded, as the process
exit status.  `credentials_ok` is whether the `GCSUploader` constructor
succeeded (a missing or malformed credentials file raises and is caught,
line 521-523, exit 1).  `parser.error` (lines 469 and 482) raises
`SystemExit(2)`, which no `except` clause catches, so those paths exit 2.
Directory routing is line 487: an existing directory, or the recursive
flag, routes to `upload_directory`; an error-status entry in the returned
batch exits 1 (lines 500-501); otherwise a caught exception exits 1 and a
normal return exits 0. -/
def mainRun (env : Env) (c : Cloud) (credentials_ok : Bool) (args : Args) : Nat :=
  if !credentials_ok then 1
  else if args.list_buckets then
    match c.listBucketsError with
    | some _ => 1
    | none => 0
  else if args.bucket_name = "" then 2
  else if args.list_blobs_flag then
    match c.listBlobsError args.bucket_name with
    | some _ => 1
    | none => 0
  else
    match args.source with
    | none => 2
    | some source_path =>
      if isDirAt env source_path || args.recursive then
        match upload_directory env c args.bucket_name source_path
            (args.destination.getD "") args.pat args.recursive args.content_type
            none args.make_public (!args.no_overwrite) with
        | .error _ => 1
        | .ok results => if results.any (fun r => r.isError) then 1 else 0
      else
        match upload_file env c args.bucket_name source_path args.destination
            args.content_type none args.make_public (!args.no_overwrite) with
        | .error _ => 1
        | .ok _ => 0

/-! ## Helper lemmas about enumeration and filtering -/

def nameMatches (pat : String) (pr : List String × FSEntry) : Bool :=
  matchesPattern pat (lastComp pr.1)

theorem map_filter_swap {α β} (f : α → β) (q : β → Bool) :
    (l : List α) → (l.map f).filter q = (l.filter (fun a => q (f a))).map f
  | [] => rfl
  | a :: t => by
    simp only [List.map_cons, List.filter_cons, map_filter_swap f q t]
    by_cases h : q (f a) <;> simp [h]

theorem topChildren_fst_ne : (cs : FSDir) → ∀ pr ∈ topChildren cs, pr.1 ≠ []
  | .nil => by simp [topChildren]
  | .cons n e rest => by
    intro pr hpr
    rw [topChildren] at hpr
    rcases List.mem_cons.1 hpr with h | h
    · subst h; simp
    · exact topChildren_fst_ne rest pr h

theorem allUnder_fst_ne : (cs : FSDir) → ∀ pr ∈ allUnder cs, pr.1 ≠ []
  | .nil => by simp [allUnder]
  | .cons n e rest => by
    intro pr hpr
    rw [allUnder] at hpr
    rcases List.mem_append.1 hpr with h | h
    · rcases List.mem_map.1 h with ⟨a, _, rfl⟩; simp
    · exact allUnder_fst_ne rest pr h

theorem allEntry_fst_ne (e : FSEntry) : ∀ pr ∈ allEntry e, pr.1 ≠ [] := by
  cases e with
  | dir ds =>
    intro pr hpr
    rw [allEntry] at hpr
    rcases List.mem_append.1 hpr with h | h
    · exact topChildren_fst_ne ds pr h
    · exact allUnder_fst_ne ds pr h
  | file n => intro pr hpr; simp [allEntry] at hpr
  | other => intro pr hpr; simp [allEntry] at hpr

theorem lastComp_cons (n : String) (p : List String) (h : p ≠ []) :
    lastComp (n :: p) = lastComp p := by
  cases p with
  | nil => exact absurd rfl h
  | cons a t => simp [lastComp, List.getLast?_cons_cons]

theorem matchChildren_eq (pat : String) :
    (cs : FSDir) → matchChildren pat cs = (topChildren cs).filter (nameMatches pat)
  | .nil => rfl
  | .cons n e rest => by
    rw [matchChildren, topChildren, List.filter_cons, matchChildren_eq pat rest]
    have hn : nameMatches pat ([n], e) = matchesPattern pat n := rfl
    rw [hn]

mutual
theorem rglobEntry_eq (pat : String) :
    (e : FSEntry) → rglobEntry pat e = (allEntry e).filter (nameMatches pat)
  | .file n => rfl
  | .other => rfl
  | .dir ds => by
    rw [rglobEntry, allEntry, List.filter_append, matchChildren_eq pat ds,
      rglobUnder_eq pat ds]
theorem rglobUnder_eq (pat : String) :
    (cs : FSDir) → rglobUnder pat cs = (allUnder cs).filter (nameMatches pat)
  | .nil => rfl
  | .cons n e rest => by
    rw [rglobUnder, allUnder, List.filter_append, rglobUnder_eq pat rest,
      rglobEntry_eq pat e, map_filter_swap]
    have hcong : ((allEntry e).filter fun a => nameMatches pat (n :: a.1, a.2)) =
        (allEntry e).filter (nameMatches pat) := by
      apply List.filter_congr
      intro a ha
      have h1 : lastComp (n :: a.1) = lastComp a.1 :=
        lastComp_cons n a.1 (allEntry_fst_ne e a ha)
      simp [nameMatches, h1]
    rw [hcong]
end

theorem discoverFrom_characterized (pat : String) (cs : FSDir) :
    discoverFrom cs pat true = (topChildren cs ++ allUnder cs).filter
      (fun pr => pr.2.isFile && nameMatches pat pr) ∧
    discoverFrom cs pat false = (topChildren cs).filter
      (fun pr => pr.2.isFile && nameMatches pat pr) := by
  constructor
  · rw [discoverFrom, if_pos rfl, matchChildren_eq pat cs, rglobUnder_eq pat cs,
      ← List.filter_append, List.filter_filter]
  · rw [discoverFrom]
    simp only [Bool.false_eq_true, if_false, matchChildren_eq pat cs, List.filter_filter]

/-! ## Concrete scenarios used by the example and witness theorems -/

/-- A Storage Client with no pre-existing blobs and no failures. -/
def cloudIdle : Cloud where
  blobExists := fun _ _ => false
  existsAtWrite := fun _ _ => false
  transportError := fun _ _ => none
  makePublicError := fun _ _ => none
  publicUrl := fun b n => "https://storage.googleapis.com/" ++ b ++ "/" ++ n
  listBucketsError := none
  listBlobsError := fun _ => none

/-- A Storage Client whose transport fails exactly on blob name f2.txt. -/
def cloudBoom : Cloud := { cloudIdle with
  transportError := fun _ n => if n = "f2.txt" then some "boom" else none }

/-- A Storage Client on which every blob already exists at check time. -/
def cloudTaken : Cloud := { cloudIdle with blobExists := fun _ _ => true }

/-- A Storage Client where no blob exists at check time but every blob
exists by write time: a concurrent creation wins the race. -/
def cloudRaced : Cloud := { cloudIdle with existsAtWrite := fun _ _ => true }

def envOf (root : FSEntry) : Env where
  root := root
  guessType := fun _ => none
  now := "2026-01-01T00:00:00"

/-- Children of directory /d: three text files. -/
def dirBatch : FSDir :=
  .cons "f1.txt" (.file 1) (.cons "f2.txt" (.file 2) (.cons "f3.txt" (.file 3) .nil))

def rootBatch : FSEntry := .dir (.cons "d" (.dir dirBatch) .nil)

/-- Root holding /a/b/c.txt (the spec's destination-derivation example). -/
def dirA : FSDir :=
  .cons "a" (.dir (.cons "b" (.dir (.cons "c.txt" (.file 7) .nil)) .nil)) .nil

def rootA : FSEntry := .dir dirA

/-- A directory with x.pdf, x.json, a subdirectory whose name also matches
*.pdf, and a non-regular entry whose name also matches. -/
def dirMix : FSDir :=
  .cons "x.pdf" (.file 11) (.cons "x.json" (.file 22)
    (.cons "sub.pdf" (.dir .nil) (.cons "link.pdf" .other .nil)))

/-! ## Claims -/

/-- C1: an error while uploading one discovered file becomes an error-status
result carrying that file's source path and the message (first conjunct);
the batch is still the full per-file map, so it is not aborted (second
conjunct); and the single-file operation itself propagates a Storage Client
error to its caller instead of swallowing it (third conjunct). -/
theorem batch_error_isolated
    (env : Env) (c : Cloud) (bn : String) (sd : List String) (dp : String)
    (ct : Option String) (md : Option (List (String × String))) (mp ow : Bool)
    (pr : List String × FSEntry) (e : UploadError)
    (pat : String) (recursive : Bool) (cs : FSDir)
    (p : List String) (sz : Nat) (d msg : String)
    (hup : upload_file env c bn (sd ++ pr.1) (some (derive_destination dp pr.1))
      ct md mp ow = .error e)
    (hdir : lookup env.root sd = some (.dir cs))
    (hfile : lookup env.root p = some (.file sz))
    (hnoskip : (!ow && c.blobExists bn d) = false)
    (hfail : c.uploadBlob bn d (if_generation_match_arg ow) = some msg) :
    process_one env c bn sd dp ct md mp ow pr =
      UploadResult.error (renderPath (sd ++ pr.1)) e.message ∧
    upload_directory env c bn sd dp pat recursive ct md mp ow =
      .ok ((discoverFrom cs pat recursive).map (process_one env c bn sd dp ct md mp ow)) ∧
    upload_file env c bn p (some d) ct md mp ow = .error (.cloud msg) := by
  refine ⟨?_, ?_, ?_⟩
  · simp [process_one, hup]
  · simp only [upload_directory, hdir]
    by_cases h : (discoverFrom cs pat recursive).isEmpty
    · rw [if_pos h, List.isEmpty_iff.mp h, List.map_nil]
    · rw [if_neg h]
  · simp [upload_file, hfile, hnoskip, hfail]

/-- C1 witness: in /d the transport fails on the second of three files; the
loop body turns it into an error-status entry, the batch is the full
three-element map, and the bare single-file call on that file raises. -/
theorem batch_error_isolated_witness :
    process_one (envOf rootBatch) cloudBoom "bkt" ["d"] "" none none false true
        (["f2.txt"], FSEntry.file 2) =
      UploadResult.error (renderPath (["d"] ++ ["f2.txt"])) (UploadError.cloud "boom").message ∧
    upload_directory (envOf rootBatch) cloudBoom "bkt" ["d"] "" "*" true none none false true =
      .ok ((discoverFrom dirBatch "*" true).map
        (process_one (envOf rootBatch) cloudBoom "bkt" ["d"] "" none none false true)) ∧
    upload_file (envOf rootBatch) cloudBoom "bkt" ["d", "f2.txt"] (some "f2.txt")
      none none false true = .error (.cloud "boom") :=
  batch_error_isolated (envOf rootBatch) cloudBoom "bkt" ["d"] "" none none false true
    (["f2.txt"], FSEntry.file 2) (.cloud "boom") "*" true dirBatch
    ["d", "f2.txt"] 2 "f2.txt" "boom" rfl rfl rfl rfl rfl

/-- C2: over an existing directory the batch is exactly one result per
discovered file, produced by mapping the loop body over the discovery list
in discovery order (first conjunct, from which the length equality in the
second conjunct follows); an empty discovery yields an empty batch, not an
error (third conjunct). -/
theorem batch_one_result_per_file
    (env : Env) (c : Cloud) (bn : String) (sd : List String) (dp : String)
    (pat : String) (recursive : Bool) (ct : Option String)
    (md : Option (List (String × String))) (mp ow : Bool) (cs : FSDir)
    (sd2 : List String) (pat2 : String) (rec2 : Bool) (cs2 : FSDir)
    (hdir : lookup env.root sd = some (.dir cs))
    (hdir2 : lookup env.root sd2 = some (.dir cs2))
    (hemp : discoverFrom cs2 pat2 rec2 = []) :
    upload_directory env c bn sd dp pat recursive ct md mp ow =
      .ok ((discoverFrom cs pat recursive).map
        (process_one env c bn sd dp ct md mp ow)) ∧
    ((discoverFrom cs pat recursive).map
      (process_one env c bn sd dp ct md mp ow)).length =
      (discoverFrom cs pat recursive).length ∧
    upload_directory env c bn sd2 dp pat2 rec2 ct md mp ow = .ok [] := by
  refine ⟨?_, List.length_map _ _, ?_⟩
  · simp only [upload_directory, hdir]
    by_cases h : (discoverFrom cs pat recursive).isEmpty
    · rw [if_pos h, List.isEmpty_iff.mp h, List.map_nil]
    · rw [if_neg h]
  · simp [upload_directory, hdir2, hemp]

/-- C2 witness: /d holds three files, all discovered with pattern star; with
pattern *.pdf nothing is discovered and the batch is empty. -/
theorem batch_one_result_per_file_witness :
    upload_directory (envOf rootBatch) cloudIdle "bkt" ["d"] "" "*" true none none false true =
      .ok ((discoverFrom dirBatch "*" true).map
        (process_one (envOf rootBatch) cloudIdle "bkt" ["d"] "" none none false true)) ∧
    ((discoverFrom dirBatch "*" true).map
      (process_one (envOf rootBatch) cloudIdle "bkt" ["d"] "" none none false true)).length =
      (discoverFrom dirBatch "*" true).length ∧
    upload_directory (envOf rootBatch) cloudIdle "bkt" ["d"] "" "*.pdf" true none none false true =
      .ok [] :=
  batch_one_result_per_file (envOf rootBatch) cloudIdle "bkt" ["d"] "" "*" true
    none none false true dirBatch ["d"] "*.pdf" true dirBatch
    rfl rfl rfl

/-- C3: with overwrite off and the target blob already existing at check
time, the outcome is the skipped result with reason blob_exists and the
resolved destination, whatever the rest of the Storage Client behaviour is
(so never an error, never a success, and no write is consulted). -/
theorem no_overwrite_existing_skipped
    (env : Env) (c : Cloud) (bn : String) (p : List String)
    (dbn ct : Option String) (md : Option (List (String × String)))
    (mp : Bool) (sz : Nat)
    (hfile : lookup env.root p = some (.file sz))
    (hex : c.blobExists bn (dbn.getD (lastComp p)) = true) :
    upload_file env c bn p dbn ct md mp false =
      .ok (.skipped "blob_exists" (dbn.getD (lastComp p))) := by
  simp [upload_file, hfile, hex]

/-- C3 witness: /d/f1.txt against a bucket where the blob already exists. -/
theorem no_overwrite_existing_skipped_witness :
    upload_file (envOf rootBatch) cloudTaken "bkt" ["d", "f1.txt"] none none none false false =
      .ok (.skipped "blob_exists" ((none : Option String).getD (lastComp ["d", "f1.txt"]))) :=
  no_overwrite_existing_skipped (envOf rootBatch) cloudTaken "bkt" ["d", "f1.txt"]
    none none none false 1 rfl rfl

/-- C4: with overwrite on, the write carries no generation precondition;
with overwrite off it carries if_generation_match equal to zero (first two
conjuncts, lines 178 and 184).  Hence a creation racing between the
existence check and the write is rejected with a precondition failure when
overwrite is off (third conjunct), while with overwrite on the same
write-time state is overwritten unconditionally (fourth conjunct). -/
theorem write_precondition_semantics
    (env : Env) (c : Cloud) (bn : String) (p : List String) (d : String)
    (ct : Option String) (md : Option (List (String × String))) (sz : Nat)
    (hfile : lookup env.root p = some (.file sz))
    (hchk : c.blobExists bn d = false)
    (hraced : c.existsAtWrite bn d = true)
    (htr : c.transportError bn d = none) :
    if_generation_match_arg true = none ∧
    if_generation_match_arg false = some 0 ∧
    upload_file env c bn p (some d) ct md false false =
      .error (.cloud "412: Precondition Failed") ∧
    upload_file env c bn p (some d) ct md false true =
      .ok (.success (renderPath p) d bn sz
        (ct.getD ((env.guessType (renderPath p)).getD "application/octet-stream"))
        ("gs://" ++ bn ++ "/" ++ d) none env.now) := by
  refine ⟨rfl, rfl, ?_, ?_⟩
  · simp [upload_file, hfile, hchk, Cloud.uploadBlob, htr, hraced,
      if_generation_match_arg]
  · simp [upload_file, hfile, Cloud.uploadBlob, htr, if_generation_match_arg]

/-- C4 witness: /d/f1.txt, a bucket empty at check time on which every blob
exists by write time: the no-overwrite write is rejected with a 412, the
overwrite write succeeds. -/
theorem write_precondition_semantics_witness :
    if_generation_match_arg true = none ∧
    if_generation_match_arg false = some 0 ∧
    upload_file (envOf rootBatch) cloudRaced "bkt" ["d", "f1.txt"] (some "f1.txt")
      none none false false = .error (.cloud "412: Precondition Failed") ∧
    upload_file (envOf rootBatch) cloudRaced "bkt" ["d", "f1.txt"] (some "f1.txt")
      none none false true =
      .ok (.success (renderPath ["d", "f1.txt"]) "f1.txt" "bkt" 1
        ((none : Option String).getD
          (((envOf rootBatch).guessType (renderPath ["d", "f1.txt"])).getD
            "application/octet-stream"))
        ("gs://" ++ "bkt" ++ "/" ++ "f1.txt") none (envOf rootBatch).now) :=
  write_precondition_semantics (envOf rootBatch) cloudRaced "bkt" ["d", "f1.txt"]
    "f1.txt" none none 1 rfl rfl rfl rfl

/-- C5: with no explicit destination the single-file upload targets the
source's base name (first conjunct); the directory upload derives the
spec's example destination docs/b/c.txt from sourceDir /a, file /a/b/c.txt
and prefix docs (second conjunct), and a full directory upload of that tree
produces exactly that destination and resource URI (third conjunct). -/
theorem destination_defaults
    (env : Env) (c : Cloud) (bn : String) (p : List String)
    (ct : Option String) (md : Option (List (String × String))) (sz : Nat)
    (hfile : lookup env.root p = some (.file sz))
    (htr : c.transportError bn (lastComp p) = none) :
    upload_file env c bn p none ct md false true =
      .ok (.success (renderPath p) (lastComp p) bn sz
        (ct.getD ((env.guessType (renderPath p)).getD "application/octet-stream"))
        ("gs://" ++ bn ++ "/" ++ lastComp p) none env.now) ∧
    derive_destination "docs" ["b", "c.txt"] = "docs/b/c.txt" ∧
    upload_directory (envOf rootA) cloudIdle "bkt" ["a"] "docs" "*" true none none false true =
      .ok [.success "/a/b/c.txt" "docs/b/c.txt" "bkt" 7 "application/octet-stream"
        "gs://bkt/docs/b/c.txt" none "2026-01-01T00:00:00"] := by
  refine ⟨?_, rfl, rfl⟩
  simp [upload_file, hfile, Cloud.uploadBlob, htr, if_generation_match_arg]

/-- C5 witness: uploading /a/b/c.txt with no destination lands on the base
name c.txt; the concrete conjuncts restate the spec example. -/
theorem destination_defaults_witness :
    upload_file (envOf rootA) cloudIdle "bkt" ["a", "b", "c.txt"] none none none false true =
      .ok (.success (renderPath ["a", "b", "c.txt"]) (lastComp ["a", "b", "c.txt"]) "bkt" 7
        (((none : Option String)).getD
          (((envOf rootA).guessType (renderPath ["a", "b", "c.txt"])).getD
            "application/octet-stream"))
        ("gs://" ++ "bkt" ++ "/" ++ lastComp ["a", "b", "c.txt"]) none (envOf rootA).now) ∧
    derive_destination "docs" ["b", "c.txt"] = "docs/b/c.txt" ∧
    upload_directory (envOf rootA) cloudIdle "bkt" ["a"] "docs" "*" true none none false true =
      .ok [.success "/a/b/c.txt" "docs/b/c.txt" "bkt" 7 "application/octet-stream"
        "gs://bkt/docs/b/c.txt" none "2026-01-01T00:00:00"] :=
  destination_defaults (envOf rootA) cloudIdle "bkt" ["a", "b", "c.txt"]
    none none 7 rfl rfl

/-- C6: the discovered set is exactly the full enumeration (all depths when
recursive, top level otherwise, in traversal order) filtered to regular
files whose final path component matches the glob pattern; in particular
with files x.pdf and x.json and pattern *.pdf only x.pdf is discovered,
while a directory and a non-regular entry named like *.pdf are excluded. -/
theorem discovery_glob_filter :
    (∀ pat cs, discoverFrom cs pat true = (topChildren cs ++ allUnder cs).filter
      (fun pr => pr.2.isFile && nameMatches pat pr)) ∧
    (∀ pat cs, discoverFrom cs pat false = (topChildren cs).filter
      (fun pr => pr.2.isFile && nameMatches pat pr)) ∧
    discoverFrom dirMix "*.pdf" true = [(["x.pdf"], FSEntry.file 11)] ∧
    discoverFrom dirMix "*.pdf" false = [(["x.pdf"], FSEntry.file 11)] :=
  ⟨fun pat cs => (discoverFrom_characterized pat cs).1,
   fun pat cs => (discoverFrom_characterized pat cs).2, rfl, rfl⟩

/-- C7: a missing source file fails as not-found and a non-regular source
as invalid-argument in the single-file operation; a missing source
directory fails as not-found and a non-directory source as
invalid-argument in the directory operation.  In each case the result is
an exception, not a batch, and it does not depend on the Storage Client
`c`, which is universally quantified: the client is never contacted and no
partial batch exists. -/
theorem source_validation_failures
    (env : Env) (c : Cloud) (bn : String) (dbn ct : Option String)
    (md : Option (List (String × String))) (mp ow : Bool)
    (p1 p2 sd3 sd4 : List String) (e2 e4 : FSEntry) (dp pat : String) (recursive : Bool)
    (h1 : lookup env.root p1 = none)
    (h2 : lookup env.root p2 = some e2) (h2f : e2.isFile = false)
    (h3 : lookup env.root sd3 = none)
    (h4 : lookup env.root sd4 = some e4) (h4d : e4.isDir = false) :
    upload_file env c bn p1 dbn ct md mp ow =
      .error (.notFound ("Source file not found: " ++ renderPath p1)) ∧
    upload_file env c bn p2 dbn ct md mp ow =
      .error (.invalidArgument ("Source path is not a file: " ++ renderPath p2)) ∧
    upload_directory env c bn sd3 dp pat recursive ct md mp ow =
      .error (.notFound ("Source directory not found: " ++ renderPath sd3)) ∧
    upload_directory env c bn sd4 dp pat recursive ct md mp ow =
      .error (.invalidArgument ("Source path is not a directory: " ++ renderPath sd4)) := by
  refine ⟨?_, ?_, ?_, ?_⟩
  · simp [upload_file, h1]
  · cases e2 with
    | file n => simp [FSEntry.isFile] at h2f
    | other => simp [upload_file, h2]
    | dir ds => simp [upload_file, h2]
  · simp [upload_directory, h3]
  · cases e4 with
    | dir ds => simp [FSEntry.isDir] at h4d
    | file n => simp [upload_directory, h4]
    | other => simp [upload_directory, h4]

/-- C7 witness: /nope is missing, /d is a directory passed to the
single-file operation, and /d/f1.txt is a regular file passed to the
directory operation. -/
theorem source_validation_failures_witness :
    upload_file (envOf rootBatch) cloudIdle "bkt" ["nope"] none none none false true =
      .error (.notFound ("Source file not found: " ++ renderPath ["nope"])) ∧
    upload_file (envOf rootBatch) cloudIdle "bkt" ["d"] none none none false true =
      .error (.invalidArgument ("Source path is not a file: " ++ renderPath ["d"])) ∧
    upload_directory (envOf rootBatch) cloudIdle "bkt" ["nope"] "" "*" true none none false true =
      .error (.notFound ("Source directory not found: " ++ renderPath ["nope"])) ∧
    upload_directory (envOf rootBatch) cloudIdle "bkt" ["d", "f1.txt"] "" "*" true
        none none false true =
      .error (.invalidArgument ("Source path is not a directory: " ++
        renderPath ["d", "f1.txt"])) :=
  source_validation_failures (envOf rootBatch) cloudIdle "bkt" none none none false true
    ["nope"] ["d"] ["nope"] ["d", "f1.txt"] (.dir dirBatch) (.file 1) "" "*" true
    rfl rfl rfl rfl rfl rfl

/-- C8: every successful single-file upload returns the success record with
every field populated: source path, destination, bucket, the local file's
byte length, the resolved content type, the canonical resource URI
gs://bucket/destinationName, the public URL exactly when requested, and
the timestamp. -/
theorem success_result_fields
    (env : Env) (c : Cloud) (bn : String) (p : List String) (d : String)
    (ct : Option String) (md : Option (List (String × String))) (mp ow : Bool) (sz : Nat)
    (hfile : lookup env.root p = some (.file sz))
    (hchk : (!ow && c.blobExists bn d) = false)
    (hwr : c.uploadBlob bn d (if_generation_match_arg ow) = none)
    (hmp : (if mp then c.makePublicError bn d else none) = none) :
    upload_file env c bn p (some d) ct md mp ow =
      .ok (.success (renderPath p) d bn sz
        (ct.getD ((env.guessType (renderPath p)).getD "application/octet-stream"))
        ("gs://" ++ bn ++ "/" ++ d)
        (if mp then some (c.publicUrl bn d) else none) env.now) := by
  simp [upload_file, hfile, hchk, hwr, hmp]

/-- C8 witness: /d/f3.txt (3 bytes) uploaded to out/f3.txt with an explicit
content type and a public ACL: all fields of the success record, including
the canonical gs URI, are exhibited. -/
theorem success_result_fields_witness :
    upload_file (envOf rootBatch) cloudIdle "bkt" ["d", "f3.txt"] (some "out/f3.txt")
      (some "text/plain") none true true =
      .ok (.success (renderPath ["d", "f3.txt"]) "out/f3.txt" "bkt" 3
        ((some "text/plain").getD
          (((envOf rootBatch).guessType (renderPath ["d", "f3.txt"])).getD
            "application/octet-stream"))
        ("gs://" ++ "bkt" ++ "/" ++ "out/f3.txt")
        (if true then some (cloudIdle.publicUrl "bkt" "out/f3.txt") else none)
        (envOf rootBatch).now) :=
  success_result_fields (envOf rootBatch) cloudIdle "bkt" ["d", "f3.txt"] "out/f3.txt"
    (some "text/plain") none true true 3 rfl rfl rfl rfl

/-! ## CLI argument records for the exit-code claims -/

/-- A parse of a bare invocation: every positional defaulted, no source. -/
def argsNoSource : Args where
  bucket_name := "automationstationddata"
  source := none
  destination := none
  recursive := false
  pat := "*"
  content_type := none
  make_public := false
  no_overwrite := false
  list_buckets := false
  list_blobs_flag := false
  verbose := false

def argsDirBatch : Args :=
  { argsNoSource with bucket_name := "bkt", source := some ["d"], recursive := true }

def argsFile1 : Args :=
  { argsNoSource with bucket_name := "bkt", source := some ["d", "f1.txt"] }

def argsFile2 : Args :=
  { argsNoSource with bucket_name := "bkt", source := some ["d", "f2.txt"] }

def argsFileRec : Args :=
  { argsNoSource with bucket_name := "bkt", source := some ["d", "f1.txt"], recursive := true }

/-- The batch produced by uploading /d through `cloudBoom`: the transport
fails on the second of the three files. -/
def resultsBoom : List UploadResult :=
  [.success "/d/f1.txt" "f1.txt" "bkt" 1 "application/octet-stream" "gs://bkt/f1.txt"
    none "2026-01-01T00:00:00",
   .error "/d/f2.txt" "boom",
   .success "/d/f3.txt" "f3.txt" "bkt" 3 "application/octet-stream" "gs://bkt/f3.txt"
    none "2026-01-01T00:00:00"]

/-- C9 counterexample: a CLI invocation with no source argument (all other
arguments defaulted) is an error — the upload never runs — yet the process
exit status is 2, the argument parser's exit code, not 1. -/
theorem exit_code_counterexample :
    mainRun (envOf rootBatch) cloudIdle true argsNoSource = 2 ∧
    mainRun (envOf rootBatch) cloudIdle true argsNoSource ≠ 0 ∧
    mainRun (envOf rootBatch) cloudIdle true argsNoSource ≠ 1 :=
  ⟨rfl, by decide, by decide⟩

/-- C9 amended: once the arguments pass validation (a source present, a
non-empty bucket name), the exit status is 1 exactly when the directory
batch holds an error-status entry and 0 otherwise (first conjunct), 0 for
a single-file success (second), 1 for a single-file error (third); an
invocation whose arguments fail validation exits with the parser's
status 2 (fourth). -/
theorem exit_codes_amended
    (env : Env) (c : Cloud) (a1 a2 a3 a4 : Args) (p1 p2 p3 : List String)
    (results : List UploadResult) (r : UploadResult) (e : UploadError)
    (h1b : a1.bucket_name ≠ "") (h1lb : a1.list_buckets = false)
    (h1lf : a1.list_blobs_flag = false) (h1s : a1.source = some p1)
    (h1r : (isDirAt env p1 || a1.recursive) = true)
    (h1u : upload_directory env c a1.bucket_name p1 (a1.destination.getD "") a1.pat
      a1.recursive a1.content_type none a1.make_public (!a1.no_overwrite) = .ok results)
    (h2b : a2.bucket_name ≠ "") (h2lb : a2.list_buckets = false)
    (h2lf : a2.list_blobs_flag = false) (h2s : a2.source = some p2)
    (h2r : (isDirAt env p2 || a2.recursive) = false)
    (h2u : upload_file env c a2.bucket_name p2 a2.destination a2.content_type none
      a2.make_public (!a2.no_overwrite) = .ok r)
    (h3b : a3.bucket_name ≠ "") (h3lb : a3.list_buckets = false)
    (h3lf : a3.list_blobs_flag = false) (h3s : a3.source = some p3)
    (h3r : (isDirAt env p3 || a3.recursive) = false)
    (h3u : upload_file env c a3.bucket_name p3 a3.destination a3.content_type none
      a3.make_public (!a3.no_overwrite) = .error e)
    (h4b : a4.bucket_name ≠ "") (h4lb : a4.list_buckets = false)
    (h4lf : a4.list_blobs_flag = false) (h4s : a4.source = none) :
    mainRun env c true a1 = (if results.any (fun x => x.isError) then 1 else 0) ∧
    mainRun env c true a2 = 0 ∧
    mainRun env c true a3 = 1 ∧
    mainRun env c true a4 = 2 := by
  refine ⟨?_, ?_, ?_, ?_⟩
  · simp [mainRun, h1lb, h1lf, h1b, h1s, h1r, h1u]
  · simp [mainRun, h2lb, h2lf, h2b, h2s, h2r, h2u]
  · simp [mainRun, h3lb, h3lf, h3b, h3s, h3r, h3u]
  · simp [mainRun, h4lb, h4lf, h4b, h4s]

/-- C9 amended witness: over /d with the transport failing on f2.txt, the
directory invocation exits 1 (its batch holds an error entry), the
single-file invocation on f1.txt exits 0, the one on f2.txt exits 1, and
the bare invocation with no source exits 2. -/
theorem exit_codes_amended_witness :
    mainRun (envOf rootBatch) cloudBoom true argsDirBatch =
      (if resultsBoom.any (fun x => x.isError) then 1 else 0) ∧
    mainRun (envOf rootBatch) cloudBoom true argsFile1 = 0 ∧
    mainRun (envOf rootBatch) cloudBoom true argsFile2 = 1 ∧
    mainRun (envOf rootBatch) cloudBoom true argsNoSource = 2 :=
  exit_codes_amended (envOf rootBatch) cloudBoom argsDirBatch argsFile1 argsFile2
    argsNoSource ["d"] ["d", "f1.txt"] ["d", "f2.txt"] resultsBoom
    (.success "/d/f1.txt" "f1.txt" "bkt" 1 "application/octet-stream" "gs://bkt/f1.txt"
      none "2026-01-01T00:00:00")
    (.cloud "boom")
    (by decide) rfl rfl rfl rfl rfl
    (by decide) rfl rfl rfl rfl rfl
    (by decide) rfl rfl rfl rfl rfl
    (by decide) rfl rfl rfl

/-- C10: when the source is an existing regular file but the recursive flag
is set, the CLI routes to the directory operation, which rejects the
source as not a directory before any upload, and the process exits 1. -/
theorem recursive_flag_on_regular_file
    (env : Env) (c : Cloud) (args : Args) (p : List String) (sz : Nat)
    (hb : args.bucket_name ≠ "") (hlb : args.list_buckets = false)
    (hlf : args.list_blobs_flag = false) (hs : args.source = some p)
    (hr : args.recursive = true) (hf : lookup env.root p = some (.file sz)) :
    upload_directory env c args.bucket_name p (args.destination.getD "") args.pat
      args.recursive args.content_type none args.make_public (!args.no_overwrite) =
      .error (.invalidArgument ("Source path is not a directory: " ++ renderPath p)) ∧
    mainRun env c true args = 1 := by
  have hdir : upload_directory env c args.bucket_name p (args.destination.getD "")
      args.pat args.recursive args.content_type none args.make_public
      (!args.no_overwrite) =
      .error (.invalidArgument ("Source path is not a directory: " ++ renderPath p)) := by
    simp [upload_directory, hf]
  refine ⟨hdir, ?_⟩
  rw [hr] at hdir
  simp [mainRun, hlb, hlf, hb, hs, hr, hdir]

/-- C10 witness: /d/f1.txt with the recursive flag: the directory operation
raises not-a-directory and the exit status is 1. -/
theorem recursive_flag_on_regular_file_witness :
    upload_directory (envOf rootBatch) cloudIdle argsFileRec.bucket_name ["d", "f1.txt"]
      (argsFileRec.destination.getD "") argsFileRec.pat argsFileRec.recursive
      argsFileRec.content_type none argsFileRec.make_public (!argsFileRec.no_overwrite) =
      .error (.invalidArgument ("Source path is not a directory: " ++
        renderPath ["d", "f1.txt"])) ∧
    mainRun (envOf rootBatch) cloudIdle true argsFileRec = 1 :=
  recursive_flag_on_regular_file (envOf rootBatch) cloudIdle argsFileRec
    ["d", "f1.txt"] 1 (by decide) rfl rfl rfl rfl rfl
